import Mathlib

/-!
Verification of the amplifier provider adapters (DeepSeek, Qwen, Doubao).

Each adapter translates a vendor-neutral ChatRequest into a vendor JSON
payload, performs one HTTP POST, and decodes the vendor JSON reply into a
neutral ChatResponse.  The embedding below models JSON values, the Python
dictionary operations the adapters use (`dict.get` with a default,
truthiness, indexing, iteration), and the payload-building / reply-decoding
code of `complete` in each of the three provider modules.  The external JSON
string parser (`json.loads`) is passed in as a parameter
`parse : String → Option Json`; `parse s = none` models a JSONDecodeError.
-/

namespace Amplifier

/-- A JSON value, as produced by `response.json()` and carried inside the
Python dictionaries the adapters manipulate.  `null` also stands for the
Python `None` that `dict.get` returns for an absent key with no default. -/
inductive Json where
  | null
  | bool (b : Bool)
  | num (n : Int)
  | str (s : String)
  | arr (elems : List Json)
  | obj (fields : List (String × Json))

/-- First-match lookup in an association list, as in a Python dict (keys are
unique in any dict the code builds or receives). -/
def lookupField : List (String × Json) → String → Option Json
  | [], _ => none
  | (k, v) :: rest, key => if key = k then some v else lookupField rest key

/-- A decode-time failure of `complete`: an uncaught Python exception. -/
inductive DecodeErr where
  | attributeError
  | typeError
  | raised (msg : String)

/-- Python `d.get(key, default)`.  Calling `.get` on a non-dictionary raises
AttributeError, which the adapters never catch. -/
def Json.get (o : Json) (key : String) (default : Json) : Except DecodeErr Json :=
  match o with
  | .obj fields => .ok ((lookupField fields key).getD default)
  | _ => .error .attributeError

/-- Python truthiness of a JSON value (`if x:`). -/
def Json.truthy : Json → Bool
  | .null => false
  | .bool b => b
  | .num n => n != 0
  | .str s => s != ""
  | .arr l => !l.isEmpty
  | .obj f => !f.isEmpty

/-- Python `xs[0]` on a value expected to be a list.  The adapters only index
`choices[0]` after `if not choices:` has ruled out the falsy values, so the
empty-list case is unreachable there; a non-list raises. -/
def Json.index0 : Json → Except DecodeErr Json
  | .arr (x :: _) => .ok x
  | _ => .error .typeError

/-- True exactly for a JSON object (a Python mapping). -/
def Json.isObj : Json → Bool
  | .obj _ => true
  | _ => false

/-- The raw HTTP reply seen by `complete`: `status_code`, the raw body `text`
used in error messages, and `body`, the value `response.json()` parses from
that text. -/
structure HttpResponse where
  status_code : Nat
  text : String
  body : Json

/-- Modelled from the spec: `amplifier_core.message_models.ChatMessage` is not
under src/.  A chat message has a role (system/user/assistant/tool) and text
content. -/
structure ChatMessage where
  role : String
  content : String

/-- Modelled from the spec: `amplifier_core.models.ToolSpec`-shaped tool entry
as consumed by `complete` (`tool.name`, `tool.description`,
`tool.parameters`): name, description and a JSON-schema-shaped `parameters`. -/
structure ToolSpec where
  name : String
  description : String
  parameters : Json

/-- Modelled from the spec: `amplifier_core.message_models.ChatRequest` is not
under src/.  Messages in conversation order, an optional tool list (absent is
modelled as the empty list, which Python treats identically under `if tools:`),
an optional model override (`none` for Python None), and optional
temperature / max_tokens carried as JSON values (`Json.null` for Python None). -/
structure ChatRequest where
  messages : List ChatMessage
  tools : List ToolSpec
  model : Option String
  temperature : Json
  max_tokens : Json

/-- The keyword-argument overrides of `complete(request, **kwargs)`: `none`
means the key is absent from kwargs; `some v` means the caller passed it
(possibly as an explicit null). -/
structure Overrides where
  model : Option String
  temperature : Option Json
  max_tokens : Option Json

/-- Modelled from the spec: `amplifier_core.models.ToolCall.function` is the
mapping the decode loop builds: a name and the parsed arguments value. -/
structure ToolCallFunction where
  name : Json
  arguments : Json

/-- Modelled from the spec: `amplifier_core.models.ToolCall` is not under
src/.  Plain record of the three keyword arguments the decode loop passes. -/
structure ToolCall where
  id : Json
  type : Json
  function : ToolCallFunction

/-- Modelled from the spec: `amplifier_core.message_models.ChatResponse` is
not under src/.  Plain record of the keyword arguments `complete` passes. -/
structure ChatResponse where
  id : Json
  model : String
  role : Json
  content : Json
  tool_calls : List ToolCall
  usage : Json

/-- Python truthiness of an optional string (absent or empty is falsy). -/
def pyTruthyStr : Option String → Bool
  | some s => s != ""
  | none => false

namespace DeepSeekProvider

/-- Hard-coded fallback base URL (src line 25). -/
def default_base_url : String := "https://api.deepseek.com/v1"

/-- Hard-coded fallback model id (src line 26). -/
def default_model_fallback : String := "deepseek-chat"

/-- `DeepSeekProvider._get_api_key` (src lines 29-44): the config field
`api_key` wins when truthy, then the environment variable DEEPSEEK_API_KEY
when truthy, else a ValueError naming the variable.  The two parameters are
`config.get("api_key")` and `os.environ.get("DEEPSEEK_API_KEY")`. -/
def get_api_key (config_api_key env_api_key : Option String) : Except String String :=
  if pyTruthyStr config_api_key then .ok (config_api_key.getD "")
  else if pyTruthyStr env_api_key then .ok (env_api_key.getD "")
  else .error "DeepSeek API key not found in config or environment variable DEEPSEEK_API_KEY"

/-- Message encoding (src lines 153-157): each message maps to
`(role, content)` unchanged. -/
def encodeMessage (msg : ChatMessage) : Json :=
  .obj [("role", .str msg.role), ("content", .str msg.content)]

/-- Tool encoding (src lines 163-172). -/
def encodeToolSpec (tool : ToolSpec) : Json :=
  .obj [("type", .str "function"),
        ("function", .obj [("name", .str tool.name),
                           ("description", .str tool.description),
                           ("parameters", tool.parameters)])]

/-- Model resolution (src line 146):
`kwargs.get("model", request.model or self.default_model)`.  Python `or`
falls through on the falsy values None and the empty string. -/
def resolveModel (kwargs : Overrides) (request : ChatRequest) (default_model : String) : String :=
  kwargs.model.getD
    (match request.model with
     | some s => if s = "" then default_model else s
     | none => default_model)

/-- Payload construction (src lines 146-183).  The dict literal always
carries `model`, `messages`, `temperature`, `max_tokens`; the `tools` key is
added afterwards only when the encoded tool list is truthy, i.e. exactly when
`request.tools` is non-empty. -/
def buildPayload (request : ChatRequest) (kwargs : Overrides) (default_model : String) : Json :=
  let model := resolveModel kwargs request default_model
  let temperature := kwargs.temperature.getD request.temperature
  let max_tokens := kwargs.max_tokens.getD request.max_tokens
  let deepseek_messages := request.messages.map encodeMessage
  let base := [("model", .str model),
               ("messages", .arr deepseek_messages),
               ("temperature", temperature),
               ("max_tokens", max_tokens)]
  if request.tools.isEmpty then .obj base
  else .obj (base ++ [("tools", .arr (request.tools.map encodeToolSpec))])

/-- `json.loads(function_args)` under `try/except json.JSONDecodeError`
(src lines 226-229): on a string, a parse failure is absorbed into the empty
mapping; on a non-string wire value `json.loads` raises TypeError, which the
except clause does not catch. -/
def parseArgs (parse : String → Option Json) (function_args : Json) : Except DecodeErr Json :=
  match function_args with
  | .str s => .ok ((parse s).getD (.obj []))
  | _ => .error .typeError

/-- One iteration of the tool-call loop (src lines 218-239). -/
def decodeToolCall (parse : String → Option Json) (tool_call : Json) : Except DecodeErr ToolCall :=
  Except.bind (tool_call.get "id" .null) fun tool_call_id =>
  Except.bind (tool_call.get "type" .null) fun tool_call_type =>
  Except.bind (tool_call.get "function" (.obj [])) fun fn =>
  Except.bind (fn.get "name" .null) fun function_name =>
  Except.bind (fn.get "arguments" (.str "\x7b\x7d")) fun function_args =>
  Except.bind (parseArgs parse function_args) fun args =>
  .ok ⟨tool_call_id, tool_call_type, ⟨function_name, args⟩⟩

/-- The `for tool_call in tool_calls:` loop body applied in order, stopping at
the first uncaught exception. -/
def mapDecodeToolCall (parse : String → Option Json) : List Json → Except DecodeErr (List ToolCall)
  | [] => .ok []
  | tc :: rest =>
    Except.bind (decodeToolCall parse tc) fun t =>
    Except.bind (mapDecodeToolCall parse rest) fun ts =>
    .ok (t :: ts)

/-- Iterating `message.get("tool_calls", [])`: a list iterates element-wise, a
non-list raises. -/
def decodeToolCallList (parse : String → Option Json) : Json → Except DecodeErr (List ToolCall)
  | .arr l => mapDecodeToolCall parse l
  | _ => .error .typeError

/-- Reply decoding (src lines 204-251): read `choices`, fail when falsy
(empty or absent), read `choices[0].message` with its defaults, convert the
tool calls, and assemble the ChatResponse around the caller-resolved model. -/
def decodeResponse (parse : String → Option Json) (model : String) (response_data : Json) :
    Except DecodeErr ChatResponse :=
  Except.bind (response_data.get "choices" (.arr [])) fun choices =>
  if choices.truthy = false then .error (.raised "DeepSeek API returned no choices") else
  Except.bind choices.index0 fun choice =>
  Except.bind (choice.get "message" (.obj [])) fun message =>
  Except.bind (message.get "role" (.str "assistant")) fun role =>
  Except.bind (message.get "content" (.str "")) fun content =>
  Except.bind (message.get "tool_calls" (.arr [])) fun tool_calls =>
  Except.bind (decodeToolCallList parse tool_calls) fun tool_calls_list =>
  Except.bind (response_data.get "id" (.str "")) fun id =>
  Except.bind (response_data.get "usage" (.obj [])) fun usage =>
  .ok ⟨id, model, role, content, tool_calls_list, usage⟩

/-- Status check plus decode (src lines 200-251): any status other than 200
raises an Exception carrying the status code and the raw body text; a 200
reply is decoded. -/
def completeResponse (parse : String → Option Json) (model : String) (response : HttpResponse) :
    Except DecodeErr ChatResponse :=
  if response.status_code ≠ 200 then
    .error (.raised ("DeepSeek API error: " ++ toString response.status_code ++ " - " ++ response.text))
  else
    decodeResponse parse model response.body

end DeepSeekProvider

namespace QwenProvider

/-- Hard-coded fallback base URL (qwen src line 25). -/
def default_base_url : String := "https://api.tongyi.ai/v1"

/-- Hard-coded fallback model id (qwen src line 26). -/
def default_model_fallback : String := "qwen2.5-7b-instruct"

/-- `QwenProvider._get_api_key` (qwen src lines 29-44): config field first,
then QWEN_API_KEY, else a ValueError naming the variable. -/
def get_api_key (config_api_key env_api_key : Option String) : Except String String :=
  if pyTruthyStr config_api_key then .ok (config_api_key.getD "")
  else if pyTruthyStr env_api_key then .ok (env_api_key.getD "")
  else .error "Qwen API key not found in config or environment variable QWEN_API_KEY"

/-- Message encoding (qwen src lines 160-164). -/
def encodeMessage (msg : ChatMessage) : Json :=
  .obj [("role", .str msg.role), ("content", .str msg.content)]

/-- Tool encoding (qwen src lines 170-179). -/
def encodeToolSpec (tool : ToolSpec) : Json :=
  .obj [("type", .str "function"),
        ("function", .obj [("name", .str tool.name),
                           ("description", .str tool.description),
                           ("parameters", tool.parameters)])]

/-- Model resolution (qwen src line 153). -/
def resolveModel (kwargs : Overrides) (request : ChatRequest) (default_model : String) : String :=
  kwargs.model.getD
    (match request.model with
     | some s => if s = "" then default_model else s
     | none => default_model)

/-- Payload construction (qwen src lines 153-190). -/
def buildPayload (request : ChatRequest) (kwargs : Overrides) (default_model : String) : Json :=
  let model := resolveModel kwargs request default_model
  let temperature := kwargs.temperature.getD request.temperature
  let max_tokens := kwargs.max_tokens.getD request.max_tokens
  let qwen_messages := request.messages.map encodeMessage
  let base := [("model", .str model),
               ("messages", .arr qwen_messages),
               ("temperature", temperature),
               ("max_tokens", max_tokens)]
  if request.tools.isEmpty then .obj base
  else .obj (base ++ [("tools", .arr (request.tools.map encodeToolSpec))])

/-- `json.loads` under `try/except json.JSONDecodeError` (qwen src
lines 233-236). -/
def parseArgs (parse : String → Option Json) (function_args : Json) : Except DecodeErr Json :=
  match function_args with
  | .str s => .ok ((parse s).getD (.obj []))
  | _ => .error .typeError

/-- One iteration of the tool-call loop (qwen src lines 225-246). -/
def decodeToolCall (parse : String → Option Json) (tool_call : Json) : Except DecodeErr ToolCall :=
  Except.bind (tool_call.get "id" .null) fun tool_call_id =>
  Except.bind (tool_call.get "type" .null) fun tool_call_type =>
  Except.bind (tool_call.get "function" (.obj [])) fun fn =>
  Except.bind (fn.get "name" .null) fun function_name =>
  Except.bind (fn.get "arguments" (.str "\x7b\x7d")) fun function_args =>
  Except.bind (parseArgs parse function_args) fun args =>
  .ok ⟨tool_call_id, tool_call_type, ⟨function_name, args⟩⟩

/-- The tool-call loop applied in order. -/
def mapDecodeToolCall (parse : String → Option Json) : List Json → Except DecodeErr (List ToolCall)
  | [] => .ok []
  | tc :: rest =>
    Except.bind (decodeToolCall parse tc) fun t =>
    Except.bind (mapDecodeToolCall parse rest) fun ts =>
    .ok (t :: ts)

/-- Iterating `message.get("tool_calls", [])`. -/
def decodeToolCallList (parse : String → Option Json) : Json → Except DecodeErr (List ToolCall)
  | .arr l => mapDecodeToolCall parse l
  | _ => .error .typeError

/-- Reply decoding (qwen src lines 211-258). -/
def decodeResponse (parse : String → Option Json) (model : String) (response_data : Json) :
    Except DecodeErr ChatResponse :=
  Except.bind (response_data.get "choices" (.arr [])) fun choices =>
  if choices.truthy = false then .error (.raised "Qwen API returned no choices") else
  Except.bind choices.index0 fun choice =>
  Except.bind (choice.get "message" (.obj [])) fun message =>
  Except.bind (message.get "role" (.str "assistant")) fun role =>
  Except.bind (message.get "content" (.str "")) fun content =>
  Except.bind (message.get "tool_calls" (.arr [])) fun tool_calls =>
  Except.bind (decodeToolCallList parse tool_calls) fun tool_calls_list =>
  Except.bind (response_data.get "id" (.str "")) fun id =>
  Except.bind (response_data.get "usage" (.obj [])) fun usage =>
  .ok ⟨id, model, role, content, tool_calls_list, usage⟩

/-- Status check plus decode (qwen src lines 207-258). -/
def completeResponse (parse : String → Option Json) (model : String) (response : HttpResponse) :
    Except DecodeErr ChatResponse :=
  if response.status_code ≠ 200 then
    .error (.raised ("Qwen API error: " ++ toString response.status_code ++ " - " ++ response.text))
  else
    decodeResponse parse model response.body

end QwenProvider

namespace DoubaoProvider

/-- Hard-coded fallback base URL (doubao src line 25). -/
def default_base_url : String := "https://ark.cn-beijing.volces.com/api/v3"

/-- Hard-coded fallback model id (doubao src line 26). -/
def default_model_fallback : String := "doubao-1.5-pro-128k"

/-- `DoubaoProvider._get_api_key` (doubao src lines 29-44): config field
first, then DOUBAO_API_KEY, else a ValueError naming the variable. -/
def get_api_key (config_api_key env_api_key : Option String) : Except String String :=
  if pyTruthyStr config_api_key then .ok (config_api_key.getD "")
  else if pyTruthyStr env_api_key then .ok (env_api_key.getD "")
  else .error "Doubao API key not found in config or environment variable DOUBAO_API_KEY"

/-- Message encoding (doubao src lines 153-157). -/
def encodeMessage (msg : ChatMessage) : Json :=
  .obj [("role", .str msg.role), ("content", .str msg.content)]

/-- Tool encoding (doubao src lines 163-172). -/
def encodeToolSpec (tool : ToolSpec) : Json :=
  .obj [("type", .str "function"),
        ("function", .obj [("name", .str tool.name),
                           ("description", .str tool.description),
                           ("parameters", tool.parameters)])]

/-- Model resolution (doubao src line 146). -/
def resolveModel (kwargs : Overrides) (request : ChatRequest) (default_model : String) : String :=
  kwargs.model.getD
    (match request.model with
     | some s => if s = "" then default_model else s
     | none => default_model)

/-- Payload construction (doubao src lines 146-183). -/
def buildPayload (request : ChatRequest) (kwargs : Overrides) (default_model : String) : Json :=
  let model := resolveModel kwargs request default_model
  let temperature := kwargs.temperature.getD request.temperature
  let max_tokens := kwargs.max_tokens.getD request.max_tokens
  let doubao_messages := request.messages.map encodeMessage
  let base := [("model", .str model),
               ("messages", .arr doubao_messages),
               ("temperature", temperature),
               ("max_tokens", max_tokens)]
  if request.tools.isEmpty then .obj base
  else .obj (base ++ [("tools", .arr (request.tools.map encodeToolSpec))])

/-- `json.loads` under `try/except json.JSONDecodeError` (doubao src
lines 226-229). -/
def parseArgs (parse : String → Option Json) (function_args : Json) : Except DecodeErr Json :=
  match function_args with
  | .str s => .ok ((parse s).getD (.obj []))
  | _ => .error .typeError

/-- One iteration of the tool-call loop (doubao src lines 218-239). -/
def decodeToolCall (parse : String → Option Json) (tool_call : Json) : Except DecodeErr ToolCall :=
  Except.bind (tool_call.get "id" .null) fun tool_call_id =>
  Except.bind (tool_call.get "type" .null) fun tool_call_type =>
  Except.bind (tool_call.get "function" (.obj [])) fun fn =>
  Except.bind (fn.get "name" .null) fun function_name =>
  Except.bind (fn.get "arguments" (.str "\x7b\x7d")) fun function_args =>
  Except.bind (parseArgs parse function_args) fun args =>
  .ok ⟨tool_call_id, tool_call_type, ⟨function_name, args⟩⟩

/-- The tool-call loop applied in order. -/
def mapDecodeToolCall (parse : String → Option Json) : List Json → Except DecodeErr (List ToolCall)
  | [] => .ok []
  | tc :: rest =>
    Except.bind (decodeToolCall parse tc) fun t =>
    Except.bind (mapDecodeToolCall parse rest) fun ts =>
    .ok (t :: ts)

/-- Iterating `message.get("tool_calls", [])`. -/
def decodeToolCallList (parse : String → Option Json) : Json → Except DecodeErr (List ToolCall)
  | .arr l => mapDecodeToolCall parse l
  | _ => .error .typeError

/-- Reply decoding (doubao src lines 204-251). -/
def decodeResponse (parse : String → Option Json) (model : String) (response_data : Json) :
    Except DecodeErr ChatResponse :=
  Except.bind (response_data.get "choices" (.arr [])) fun choices =>
  if choices.truthy = false then .error (.raised "Doubao API returned no choices") else
  Except.bind choices.index0 fun choice =>
  Except.bind (choice.get "message" (.obj [])) fun message =>
  Except.bind (message.get "role" (.str "assistant")) fun role =>
  Except.bind (message.get "content" (.str "")) fun content =>
  Except.bind (message.get "tool_calls" (.arr [])) fun tool_calls =>
  Except.bind (decodeToolCallList parse tool_calls) fun tool_calls_list =>
  Except.bind (response_data.get "id" (.str "")) fun id =>
  Except.bind (response_data.get "usage" (.obj [])) fun usage =>
  .ok ⟨id, model, role, content, tool_calls_list, usage⟩

/-- Status check plus decode (doubao src lines 200-251). -/
def completeResponse (parse : String → Option Json) (model : String) (response : HttpResponse) :
    Except DecodeErr ChatResponse :=
  if response.status_code ≠ 200 then
    .error (.raised ("Doubao API error: " ++ toString response.status_code ++ " - " ++ response.text))
  else
    decodeResponse parse model response.body

end DoubaoProvider

/-- Lookup of a key in a JSON object; `none` when the key is absent (or the
value is not an object), so key presence in a payload is observable. -/
def payloadLookup (p : Json) (key : String) : Option Json :=
  match p with
  | .obj fields => lookupField fields key
  | _ => none

/-- Wire shape of one tool-call entry with all four keys present. -/
def mkToolCallWire (id ty name args : Json) : Json :=
  .obj [("id", id), ("type", ty),
        ("function", .obj [("name", name), ("arguments", args)])]

/-- A wire tool-call entry whose arguments field is a string, as the vendors
send it. -/
structure WireToolCall where
  id : Json
  type : Json
  name : Json
  args : String

/-- The JSON form of a `WireToolCall`. -/
def WireToolCall.toJson (w : WireToolCall) : Json :=
  mkToolCallWire w.id w.type w.name (.str w.args)

/-- The neutral tool call the decode loop produces from a `WireToolCall`:
arguments are the parse result, or the empty mapping when parsing fails. -/
def convToolCall (parse : String → Option Json) (w : WireToolCall) : ToolCall :=
  ⟨w.id, w.type, ⟨w.name, (parse w.args).getD (.obj [])⟩⟩

/-- A wire reply of the standard shape: top-level id and usage, one choice
whose message carries a role, content and a tool-call list. -/
def mkWireReply (id usage role content : Json) (tcs : List Json) : Json :=
  .obj [("id", id),
        ("choices", .arr [.obj [("message",
          .obj [("role", role), ("content", content), ("tool_calls", .arr tcs)])]]),
        ("usage", usage)]

/-- An association-list fragment holding the key exactly when the option is
`some`, to model a wire object with an optional key. -/
def optField (key : String) : Option Json → List (String × Json)
  | some v => [(key, v)]
  | none => []

/-- A wire tool-call entry in which id, type, function.name and
function.arguments may each be independently absent. -/
def mkToolCallWireOpt (oid oty oname oargs : Option Json) : Json :=
  .obj (optField "id" oid ++ optField "type" oty ++
        [("function", .obj (optField "name" oname ++ optField "arguments" oargs))])

/-- The scenario wire reply of the spec:
the body text is id x1 with one choice whose message has role assistant and
content 4, and no usage, no tool_calls keys. -/
def wireX1 : Json :=
  .obj [("id", .str "x1"),
        ("choices", .arr [.obj [("message",
          .obj [("role", .str "assistant"), ("content", .str "4")])]])]

/-- A parse function that agrees with `json.loads` on the input `[]` (the
JSON empty array, which parses to an empty list, not a mapping) and fails on
every other input. -/
def jsonParseOnEmptyArray : String → Option Json :=
  fun s => if s = "[]" then some (.arr []) else none

/-- A parse function that agrees with `json.loads` on the two-character input
consisting of an opening and a closing brace (which parses to the empty
mapping) and fails on every other input. -/
def jsonParseOnEmptyObj : String → Option Json :=
  fun s => if s = "\x7b\x7d" then some (.obj []) else none

/-- A parse function that fails on every input, modelling a `json.loads` call
that always raises JSONDecodeError on the strings it is given. -/
def jsonParseNone : String → Option Json := fun _ => none

/-- Concrete request of the spec scenario: one user message, no tools, no
model override, temperature and max_tokens absent. -/
def req0 : ChatRequest := ⟨[⟨"user", "2+2?"⟩], [], none, .null, .null⟩

/-- Empty keyword-argument overrides. -/
def kwargs0 : Overrides := ⟨none, none, none⟩

/-- A request carrying one tool, to observe tools-key encoding. -/
def reqWithTool : ChatRequest :=
  ⟨[⟨"user", "2+2?"⟩], [⟨"add", "add two numbers", .obj []⟩], none, .null, .null⟩

end Amplifier

namespace Amplifier

theorem excBind_ok {α β : Type} {ε : Type} (a : α) (f : α → Except ε β) :
    Except.bind (Except.ok a) f = f a := rfl

theorem excBind_error {α β : Type} {ε : Type} (e : ε) (f : α → Except ε β) :
    Except.bind (Except.error e) f = (Except.error e : Except ε β) := rfl

theorem excBind_eq_ok {α β : Type} {ε : Type} {x : Except ε α} {f : α → Except ε β} {b : β}
    (h : Except.bind x f = .ok b) : ∃ a, x = .ok a ∧ f a = .ok b := by
  cases x with
  | ok a => exact ⟨a, rfl, h⟩
  | error e => exact Except.noConfusion h

/-- The decode loop on a fully-keyed wire tool call: id, type and name pass
through and the arguments string parses with fallback to the empty mapping. -/
theorem decodeToolCall_mk (parse : String → Option Json) (id ty name : Json) (args : String) :
    DeepSeekProvider.decodeToolCall parse (mkToolCallWire id ty name (.str args)) =
      .ok ⟨id, ty, ⟨name, (parse args).getD (.obj [])⟩⟩ := by
  simp [DeepSeekProvider.decodeToolCall, mkToolCallWire, Json.get, lookupField,
        DeepSeekProvider.parseArgs, excBind_ok]

/-- The tool-call loop on a list of fully-keyed wire entries decodes them all
in order. -/
theorem mapDecodeToolCall_map (parse : String → Option Json) (entries : List WireToolCall) :
    DeepSeekProvider.mapDecodeToolCall parse (entries.map WireToolCall.toJson) =
      .ok (entries.map (convToolCall parse)) := by
  induction entries with
  | nil => rfl
  | cons w rest ih =>
    simp [DeepSeekProvider.mapDecodeToolCall, WireToolCall.toJson, decodeToolCall_mk, ih,
          convToolCall, excBind_ok]

/-- Every successful decode carries the caller-resolved model verbatim. -/
theorem decodeResponse_model_echo (parse : String → Option Json) (model : String)
    (rd : Json) (r : ChatResponse)
    (h : DeepSeekProvider.decodeResponse parse model rd = .ok r) : r.model = model := by
  unfold DeepSeekProvider.decodeResponse at h
  obtain ⟨choices, h1, h⟩ := excBind_eq_ok h
  by_cases hc : choices.truthy = false
  · rw [if_pos hc] at h; exact Except.noConfusion h
  · rw [if_neg hc] at h
    obtain ⟨choice, _, h⟩ := excBind_eq_ok h
    obtain ⟨message, _, h⟩ := excBind_eq_ok h
    obtain ⟨role, _, h⟩ := excBind_eq_ok h
    obtain ⟨content, _, h⟩ := excBind_eq_ok h
    obtain ⟨tcsj, _, h⟩ := excBind_eq_ok h
    obtain ⟨tcs, _, h⟩ := excBind_eq_ok h
    obtain ⟨id, _, h⟩ := excBind_eq_ok h
    obtain ⟨usage, _, h⟩ := excBind_eq_ok h
    injection h with h2
    subst h2
    rfl

theorem qwen_decodeToolCall_eq :
    QwenProvider.decodeToolCall = DeepSeekProvider.decodeToolCall := rfl

theorem doubao_decodeToolCall_eq :
    DoubaoProvider.decodeToolCall = DeepSeekProvider.decodeToolCall := rfl

theorem qwen_mapDecodeToolCall_eq (parse : String → Option Json) (l : List Json) :
    QwenProvider.mapDecodeToolCall parse l = DeepSeekProvider.mapDecodeToolCall parse l := by
  induction l with
  | nil => rfl
  | cons tc rest ih =>
    simp [QwenProvider.mapDecodeToolCall, DeepSeekProvider.mapDecodeToolCall,
          qwen_decodeToolCall_eq, ih]

theorem doubao_mapDecodeToolCall_eq (parse : String → Option Json) (l : List Json) :
    DoubaoProvider.mapDecodeToolCall parse l = DeepSeekProvider.mapDecodeToolCall parse l := by
  induction l with
  | nil => rfl
  | cons tc rest ih =>
    simp [DoubaoProvider.mapDecodeToolCall, DeepSeekProvider.mapDecodeToolCall,
          doubao_decodeToolCall_eq, ih]

theorem qwen_decodeToolCallList_eq (parse : String → Option Json) (j : Json) :
    QwenProvider.decodeToolCallList parse j = DeepSeekProvider.decodeToolCallList parse j := by
  cases j <;>
    simp [QwenProvider.decodeToolCallList, DeepSeekProvider.decodeToolCallList,
          qwen_mapDecodeToolCall_eq]

theorem doubao_decodeToolCallList_eq (parse : String → Option Json) (j : Json) :
    DoubaoProvider.decodeToolCallList parse j = DeepSeekProvider.decodeToolCallList parse j := by
  cases j <;>
    simp [DoubaoProvider.decodeToolCallList, DeepSeekProvider.decodeToolCallList,
          doubao_mapDecodeToolCall_eq]

theorem qwen_decodeResponse_toOption (parse : String → Option Json) (model : String) (rd : Json) :
    (QwenProvider.decodeResponse parse model rd).toOption =
      (DeepSeekProvider.decodeResponse parse model rd).toOption := by
  unfold QwenProvider.decodeResponse DeepSeekProvider.decodeResponse
  cases hc : rd.get "choices" (.arr []) with
  | error e => rfl
  | ok choices =>
    simp only [excBind_ok]
    by_cases ht : choices.truthy = false
    · rw [if_pos ht, if_pos ht]; rfl
    · rw [if_neg ht, if_neg ht]
      simp only [qwen_decodeToolCallList_eq]

theorem doubao_decodeResponse_toOption (parse : String → Option Json) (model : String) (rd : Json) :
    (DoubaoProvider.decodeResponse parse model rd).toOption =
      (DeepSeekProvider.decodeResponse parse model rd).toOption := by
  unfold DoubaoProvider.decodeResponse DeepSeekProvider.decodeResponse
  cases hc : rd.get "choices" (.arr []) with
  | error e => rfl
  | ok choices =>
    simp only [excBind_ok]
    by_cases ht : choices.truthy = false
    · rw [if_pos ht, if_pos ht]; rfl
    · rw [if_neg ht, if_neg ht]
      simp only [doubao_decodeToolCallList_eq]

/-- Claim C1: for every wire reply in which some tool_calls[i].function.arguments
string is not syntactically valid structured data, decoding substitutes the
empty mapping for that tool call and does not raise; the rest of the response
(content, other tool calls, usage) is decoded successfully.  Stated over every
standard-shaped wire reply: the decode succeeds outright, every entry decodes
to its pass-through fields with parsed-or-empty arguments, and any entry whose
arguments string fails to parse gets exactly the empty mapping. -/
theorem C1_malformed_arguments_absorbed (parse : String → Option Json) (model : String)
    (respId usage role content : Json) (entries : List WireToolCall) :
    DeepSeekProvider.decodeResponse parse model
        (mkWireReply respId usage role content (entries.map WireToolCall.toJson)) =
      .ok ⟨respId, model, role, content, entries.map (convToolCall parse), usage⟩ ∧
    ∀ w ∈ entries, parse w.args = none →
      (convToolCall parse w).function.arguments = .obj [] := by
  constructor
  · unfold DeepSeekProvider.decodeResponse mkWireReply
    simp [Json.get, lookupField, Json.truthy, Json.index0,
          DeepSeekProvider.decodeToolCallList, mapDecodeToolCall_map, excBind_ok]
  · intro w _ hw
    simp [convToolCall, hw]

/-- Witness for C1 at a concrete reply whose single tool call carries an
unparseable arguments string. -/
theorem C1_witness :
    DeepSeekProvider.decodeResponse jsonParseNone "deepseek-chat"
        (mkWireReply (.str "r1") (.obj []) (.str "assistant") (.str "")
          ([⟨.str "tc1", .str "function", .str "add", "not json"⟩].map WireToolCall.toJson)) =
      .ok ⟨.str "r1", "deepseek-chat", .str "assistant", .str "",
           [⟨.str "tc1", .str "function", ⟨.str "add", .obj []⟩⟩], .obj []⟩ ∧
    ∀ w ∈ [(⟨.str "tc1", .str "function", .str "add", "not json"⟩ : WireToolCall)],
      jsonParseNone w.args = none → (convToolCall jsonParseNone w).function.arguments = .obj [] :=
  C1_malformed_arguments_absorbed jsonParseNone "deepseek-chat"
    (.str "r1") (.obj []) (.str "assistant") (.str "")
    [⟨.str "tc1", .str "function", .str "add", "not json"⟩]

/-- Claim C2: for every wire reply whose choices sequence is empty or absent,
complete fails with the hard no-choices error and returns no ChatResponse. -/
theorem C2_empty_choices_hard_error (parse : String → Option Json) (model : String)
    (fields : List (String × Json))
    (h : lookupField fields "choices" = none ∨ lookupField fields "choices" = some (.arr [])) :
    DeepSeekProvider.decodeResponse parse model (.obj fields) =
      .error (.raised "DeepSeek API returned no choices") := by
  unfold DeepSeekProvider.decodeResponse
  rcases h with h | h <;> simp [Json.get, h, Json.truthy, excBind_ok]

/-- Witness for C2: a reply with no choices key at all. -/
theorem C2_witness :
    (lookupField ([] : List (String × Json)) "choices" = none ∨
       lookupField ([] : List (String × Json)) "choices" = some (.arr [])) ∧
    DeepSeekProvider.decodeResponse jsonParseNone "deepseek-chat" (.obj []) =
      .error (.raised "DeepSeek API returned no choices") :=
  ⟨Or.inl rfl, C2_empty_choices_hard_error jsonParseNone "deepseek-chat" [] (Or.inl rfl)⟩

/-- Claim C3: an empty (or absent) tool sequence leaves the tools key out of
the payload entirely; a non-empty tool sequence puts the tools key in, each
tool encoded as a typed function entry with name, description, parameters. -/
theorem C3_tools_key_encoding (request : ChatRequest) (kwargs : Overrides)
    (default_model : String) :
    (request.tools = [] →
       payloadLookup (DeepSeekProvider.buildPayload request kwargs default_model) "tools" = none) ∧
    (request.tools ≠ [] →
       payloadLookup (DeepSeekProvider.buildPayload request kwargs default_model) "tools" =
         some (.arr (request.tools.map DeepSeekProvider.encodeToolSpec))) ∧
    ∀ t : ToolSpec, DeepSeekProvider.encodeToolSpec t =
      .obj [("type", .str "function"),
            ("function", .obj [("name", .str t.name), ("description", .str t.description),
                               ("parameters", t.parameters)])] := by
  refine ⟨fun h => ?_, fun h => ?_, fun t => rfl⟩
  · simp [DeepSeekProvider.buildPayload, h, payloadLookup, lookupField]
  · cases hts : request.tools with
    | nil => exact absurd hts h
    | cons t ts =>
      simp [DeepSeekProvider.buildPayload, hts, payloadLookup, lookupField]

/-- Witness for C3: the spec scenario request without tools omits the key; the
same request with one tool carries it. -/
theorem C3_witness :
    payloadLookup (DeepSeekProvider.buildPayload req0 kwargs0 "deepseek-chat") "tools" = none ∧
    payloadLookup (DeepSeekProvider.buildPayload reqWithTool kwargs0 "deepseek-chat") "tools" =
      some (.arr (reqWithTool.tools.map DeepSeekProvider.encodeToolSpec)) :=
  ⟨(C3_tools_key_encoding req0 kwargs0 "deepseek-chat").1 rfl,
   (C3_tools_key_encoding reqWithTool kwargs0 "deepseek-chat").2.1 (by simp [reqWithTool])⟩

/-- Claim C4: the API key resolves by precedence, config field first, then the
DEEPSEEK_API_KEY environment variable; when neither is a non-empty value,
construction fails with an error naming the missing variable.  The
construction step is pure: no network is touched. -/
theorem C4_api_key_resolution (config_api_key env_api_key : Option String) :
    (pyTruthyStr config_api_key = true →
       DeepSeekProvider.get_api_key config_api_key env_api_key = .ok (config_api_key.getD "")) ∧
    (pyTruthyStr config_api_key = false → pyTruthyStr env_api_key = true →
       DeepSeekProvider.get_api_key config_api_key env_api_key = .ok (env_api_key.getD "")) ∧
    (pyTruthyStr config_api_key = false → pyTruthyStr env_api_key = false →
       DeepSeekProvider.get_api_key config_api_key env_api_key =
         .error ("DeepSeek API key not found in config or environment variable " ++
                 "DEEPSEEK_API_KEY")) := by
  refine ⟨fun h1 => ?_, fun h1 h2 => ?_, fun h1 h2 => ?_⟩ <;>
    simp_all [DeepSeekProvider.get_api_key]

/-- Witness for C4: all three branches at concrete configurations. -/
theorem C4_witness :
    DeepSeekProvider.get_api_key (some "cfg-key") (some "env-key") = .ok "cfg-key" ∧
    DeepSeekProvider.get_api_key none (some "env-key") = .ok "env-key" ∧
    DeepSeekProvider.get_api_key none none =
      .error ("DeepSeek API key not found in config or environment variable " ++
              "DEEPSEEK_API_KEY") :=
  ⟨(C4_api_key_resolution (some "cfg-key") (some "env-key")).1 rfl,
   (C4_api_key_resolution none (some "env-key")).2.1 rfl rfl,
   (C4_api_key_resolution none none).2.2 rfl rfl⟩

/-- Claim C5 counterexample: the claim says decoded arguments are never a
non-mapping value for any wire arguments string, but the arguments string
consisting of the two bracket characters is valid JSON (json.loads returns the
empty list), and the decode passes that non-mapping list through. -/
theorem C5_counterexample :
    DeepSeekProvider.decodeToolCall jsonParseOnEmptyArray
        (mkToolCallWire (.str "call_1") (.str "function") (.str "f") (.str "[]")) =
      .ok ⟨.str "call_1", .str "function", ⟨.str "f", .arr []⟩⟩ ∧
    Json.isObj (.arr []) = false :=
  ⟨rfl, rfl⟩

/-- Claim C5 as amended: a decoded ToolCall.function is the name plus parsed
arguments; the arguments value is whatever the arguments string parses to
(the raw string itself is never stored), and the empty mapping whenever the
string fails to parse — but a valid non-object arguments string is passed
through as the parsed non-mapping value. -/
theorem C5_amended (parse : String → Option Json) (id ty name : Json) (args : String) :
    DeepSeekProvider.decodeToolCall parse (mkToolCallWire id ty name (.str args)) =
      .ok ⟨id, ty, ⟨name, (parse args).getD (.obj [])⟩⟩ ∧
    (parse args = none →
       DeepSeekProvider.decodeToolCall parse (mkToolCallWire id ty name (.str args)) =
         .ok ⟨id, ty, ⟨name, .obj []⟩⟩) := by
  refine ⟨decodeToolCall_mk parse id ty name args, fun h => ?_⟩
  rw [decodeToolCall_mk parse id ty name args, h]
  rfl

/-- Witness for C5 as amended, at an unparseable arguments string. -/
theorem C5_witness :
    DeepSeekProvider.decodeToolCall jsonParseNone
        (mkToolCallWire (.str "call_1") (.str "function") (.str "f") (.str "oops")) =
      .ok ⟨.str "call_1", .str "function", ⟨.str "f", (jsonParseNone "oops").getD (.obj [])⟩⟩ ∧
    DeepSeekProvider.decodeToolCall jsonParseNone
        (mkToolCallWire (.str "call_1") (.str "function") (.str "f") (.str "oops")) =
      .ok ⟨.str "call_1", .str "function", ⟨.str "f", .obj []⟩⟩ :=
  ⟨(C5_amended jsonParseNone (.str "call_1") (.str "function") (.str "f") "oops").1,
   (C5_amended jsonParseNone (.str "call_1") (.str "function") (.str "f") "oops").2 rfl⟩

/-- Claim C6 counterexample: encoding the spec scenario request, in which
temperature and max_tokens are both absent, produces a payload that still
carries the temperature and max_tokens keys, holding null — the claim says the
keys are left out entirely. -/
theorem C6_counterexample :
    DeepSeekProvider.buildPayload req0 kwargs0 "deepseek-chat" =
      .obj [("model", .str "deepseek-chat"),
            ("messages", .arr [.obj [("role", .str "user"), ("content", .str "2+2?")]]),
            ("temperature", .null),
            ("max_tokens", .null)] ∧
    payloadLookup (DeepSeekProvider.buildPayload req0 kwargs0 "deepseek-chat") "temperature" =
      some .null ∧
    payloadLookup (DeepSeekProvider.buildPayload req0 kwargs0 "deepseek-chat") "max_tokens" =
      some .null :=
  ⟨rfl, rfl, rfl⟩

/-- Claim C6 as amended: the payload always carries the temperature and
max_tokens keys, forwarded as-is (null when absent everywhere), with
override-then-request precedence. -/
theorem C6_amended (request : ChatRequest) (kwargs : Overrides) (default_model : String) :
    payloadLookup (DeepSeekProvider.buildPayload request kwargs default_model) "temperature" =
      some (kwargs.temperature.getD request.temperature) ∧
    payloadLookup (DeepSeekProvider.buildPayload request kwargs default_model) "max_tokens" =
      some (kwargs.max_tokens.getD request.max_tokens) := by
  cases hts : request.tools <;>
    constructor <;>
      simp [DeepSeekProvider.buildPayload, hts, payloadLookup, lookupField]

/-- Claim C7 counterexample: status 201 is a 2xx status, yet complete fails at
the transport step instead of proceeding to decoding. -/
theorem C7_counterexample :
    (200 ≤ 201 ∧ 201 < 300) ∧
    DeepSeekProvider.completeResponse jsonParseNone "deepseek-chat" ⟨201, "Created", .obj []⟩ =
      .error (.raised "DeepSeek API error: 201 - Created") :=
  ⟨by decide, rfl⟩

/-- Claim C7 as amended: complete surfaces a single failure carrying the
status code and raw body text exactly when the HTTP status differs from 200;
every status-200 reply proceeds to response decoding. -/
theorem C7_amended (parse : String → Option Json) (model : String) (response : HttpResponse) :
    (response.status_code ≠ 200 →
       DeepSeekProvider.completeResponse parse model response =
         .error (.raised ("DeepSeek API error: " ++ toString response.status_code ++ " - " ++
                          response.text))) ∧
    (response.status_code = 200 →
       DeepSeekProvider.completeResponse parse model response =
         DeepSeekProvider.decodeResponse parse model response.body) := by
  constructor <;> intro h <;> simp [DeepSeekProvider.completeResponse, h]

/-- Witness for C7 as amended: a 500 reply fails with its body text; a 200
reply is handed to the decoder. -/
theorem C7_witness :
    DeepSeekProvider.completeResponse jsonParseNone "deepseek-chat" ⟨500, "boom", .obj []⟩ =
      .error (.raised ("DeepSeek API error: " ++ toString 500 ++ " - " ++ "boom")) ∧
    DeepSeekProvider.completeResponse jsonParseNone "deepseek-chat" ⟨200, "", wireX1⟩ =
      DeepSeekProvider.decodeResponse jsonParseNone "deepseek-chat" wireX1 :=
  ⟨(C7_amended jsonParseNone "deepseek-chat" ⟨500, "boom", .obj []⟩).1 (by decide),
   (C7_amended jsonParseNone "deepseek-chat" ⟨200, "", wireX1⟩).2 rfl⟩

/-- Claim C8: the spec scenario reply decodes to content 4, no tool calls and
empty usage; and in every successful decode the model field of the response is
the caller-resolved model, never re-read from the wire. -/
theorem C8_scenario_and_model_echo :
    (∀ (parse : String → Option Json) (model : String),
       DeepSeekProvider.decodeResponse parse model wireX1 =
         .ok ⟨.str "x1", model, .str "assistant", .str "4", [], .obj []⟩) ∧
    (∀ (parse : String → Option Json) (model : String) (rd : Json) (r : ChatResponse),
       DeepSeekProvider.decodeResponse parse model rd = .ok r → r.model = model) := by
  constructor
  · intro parse model
    unfold DeepSeekProvider.decodeResponse wireX1
    simp [Json.get, lookupField, Json.truthy, Json.index0,
          DeepSeekProvider.decodeToolCallList, DeepSeekProvider.mapDecodeToolCall, excBind_ok]
  · exact decodeResponse_model_echo

/-- Witness for C8: the scenario decode at a concrete parse and model, and the
model echo read off from it. -/
theorem C8_witness :
    DeepSeekProvider.decodeResponse jsonParseNone "deepseek-chat" wireX1 =
      .ok ⟨.str "x1", "deepseek-chat", .str "assistant", .str "4", [], .obj []⟩ ∧
    ChatResponse.model ⟨.str "x1", "deepseek-chat", .str "assistant", .str "4", [], .obj []⟩ =
      "deepseek-chat" :=
  ⟨C8_scenario_and_model_echo.1 jsonParseNone "deepseek-chat",
   C8_scenario_and_model_echo.2 jsonParseNone "deepseek-chat" wireX1 _
     (C8_scenario_and_model_echo.1 jsonParseNone "deepseek-chat")⟩

/-- Claim C9: for every request, overrides and wire reply, the three providers
perform the identical transformation once given the same resolved model: the
built payloads are equal, and the decoded ChatResponses are equal (the
vendors differ only in the constant default base URL, default model id and
credential variable name, which sit outside the transformation). -/
theorem C9_vendor_equivalence :
    (∀ (request : ChatRequest) (kwargs : Overrides) (default_model : String),
       QwenProvider.buildPayload request kwargs default_model =
         DeepSeekProvider.buildPayload request kwargs default_model ∧
       DoubaoProvider.buildPayload request kwargs default_model =
         DeepSeekProvider.buildPayload request kwargs default_model) ∧
    (∀ (parse : String → Option Json) (model : String) (response : HttpResponse),
       (QwenProvider.completeResponse parse model response).toOption =
         (DeepSeekProvider.completeResponse parse model response).toOption ∧
       (DoubaoProvider.completeResponse parse model response).toOption =
         (DeepSeekProvider.completeResponse parse model response).toOption) := by
  constructor
  · exact fun request kwargs default_model => ⟨rfl, rfl⟩
  · intro parse model response
    refine ⟨?_, ?_⟩
    · unfold QwenProvider.completeResponse DeepSeekProvider.completeResponse
      by_cases h : response.status_code ≠ 200
      · rw [if_pos h, if_pos h]; rfl
      · rw [if_neg h, if_neg h]; exact qwen_decodeResponse_toOption parse model response.body
    · unfold DoubaoProvider.completeResponse DeepSeekProvider.completeResponse
      by_cases h : response.status_code ≠ 200
      · rw [if_pos h, if_pos h]; rfl
      · rw [if_neg h, if_neg h]; exact doubao_decodeResponse_toOption parse model response.body

/-- Claim C10: decoding a wire tool-call entry never fails for a missing key:
absent id, type, or function.name come through as null (no empty-string
default), and an absent function.arguments key yields the empty mapping — the
hypothesis pins the external parser to its actual value on the two-character
default arguments string. -/
theorem C10_missing_keys_defaults (parse : String → Option Json)
    (oid oty oname : Option Json) (oargs : Option String)
    (hp : parse "\x7b\x7d" = some (.obj [])) :
    DeepSeekProvider.decodeToolCall parse (mkToolCallWireOpt oid oty oname (oargs.map .str)) =
      .ok ⟨oid.getD .null, oty.getD .null,
           ⟨oname.getD .null,
            match oargs with
            | none => .obj []
            | some s => (parse s).getD (.obj [])⟩⟩ := by
  cases oid <;> cases oty <;> cases oname <;> cases oargs <;>
    simp [DeepSeekProvider.decodeToolCall, mkToolCallWireOpt, optField, Json.get, lookupField,
          DeepSeekProvider.parseArgs, hp, excBind_ok]

/-- Witness for C10: the all-keys-absent entry decodes to nulls and the empty
mapping under a parser that parses the default arguments string correctly. -/
theorem C10_witness :
    jsonParseOnEmptyObj "\x7b\x7d" = some (.obj []) ∧
    DeepSeekProvider.decodeToolCall jsonParseOnEmptyObj (mkToolCallWireOpt none none none none) =
      .ok ⟨.null, .null, ⟨.null, .obj []⟩⟩ :=
  ⟨rfl, C10_missing_keys_defaults jsonParseOnEmptyObj none none none none rfl⟩

end Amplifier
